import Mathlib

/-!
Verification development for the financial-file-processor repository.

The Python sources under `src/` are shallowly embedded below:
pure fragments become Lean functions, pandas DataFrames become an explicit
`Frame` structure, Python exceptions become `Except PyError`, and every
network call to the language model is abstracted as an input of type
`Except PyError String` (the message content the call would have produced,
or the exception it would have raised).  `json.loads` is embedded as an
executable recursive-descent JSON parser over the character list of the
payload.
-/

/-- Errors raised by the embedded Python code.  `valueError` carries the
message string because the dispatch code formats the offending extension
into it. -/
inductive PyError where
  | valueError (msg : String)
  | typeError
  | keyError
  | apiError
  deriving DecidableEq

/-- JSON values, as produced by `json.loads`.  Finite numbers are
embedded as rationals, which represent every decimal literal exactly
(the embedding idealizes float64 rounding/overflow to exact values);
`nan` and `inf` stand for the non-finite floats Python's `json` module
produces for its `NaN` / `Infinity` / `-Infinity` constants. -/
inductive Json where
  | null
  | bool (b : Bool)
  | num (q : Rat)
  | str (s : String)
  | nan
  | inf (neg : Bool)
  | arr (xs : List Json)
  | obj (kvs : List (String × Json))

namespace Json

/-- Dictionary lookup `d[k]` on an object; `none` both for a missing key
(Python `KeyError`) and for indexing a non-dict with a string
(Python `TypeError`) — the embedded callers catch either.  Objects
produced by `jsonLoads` are duplicate-free (Python dict semantics are
applied at parse time), so the lookup is unambiguous on them. -/
def getKey : Json → String → Option Json
  | .obj kvs, k => (kvs.find? (fun kv => kv.1 = k)).map (fun kv => kv.2)
  | _, _ => none

/-- Keys of an object in order; non-dicts have none. -/
def keys : Json → List String
  | .obj kvs => kvs.map (fun kv => kv.1)
  | _ => []

/-- Whether the value is a dict. -/
def isObj : Json → Bool
  | .obj _ => true
  | _ => false

/-- Scalar JSON values (no nested containers). -/
def isScalar : Json → Bool
  | .arr _ => false
  | .obj _ => false
  | _ => true

/-- Whether the value is a list. -/
def isArr : Json → Bool
  | .arr _ => true
  | _ => false

end Json

/-- Embedding of Python `str.lower()` for ASCII text, as a character
map (the built-in `String.toLower` does not reduce in the kernel). -/
def pyLower (s : String) : String := String.mk (s.data.map Char.toLower)

/-! ### Embedding of `json.loads`

A recursive-descent reader over the character list of the payload,
following Python's `json.loads` (strict mode, default constants):
objects (duplicate keys resolved like Python dicts — first position,
last value), arrays, strings with the standard escapes including
`\uXXXX` (surrogate pairs combined), numbers per the JSON grammar (no
leading zeros; optional fraction and exponent), `null`, `true`,
`false`, and the non-standard constants `NaN`, `Infinity`,
`-Infinity` that Python accepts by default.  Raw control characters
inside string literals are rejected, as Python's strict mode rejects
them.  One idealization: a lone surrogate escape, which Python keeps
as a lone-surrogate code unit (not representable in a Lean `String`),
is decoded as U+FFFD; the parse still succeeds exactly when Python's
does, and no theorem below inspects such a string's contents.
Recursion is fuelled by the payload length. -/

/-- Whether a character is JSON whitespace. -/
def jsonWs (c : Char) : Bool := c = ' ' || c = '\n' || c = '\t' || c = '\r'

/-- Skip JSON whitespace. -/
def skipWs (cs : List Char) : List Char :=
  match cs with
  | [] => []
  | c :: rest => if jsonWs c then skipWs rest else cs

/-- Numeric value of a decimal digit character. -/
def digitVal (c : Char) : Nat := c.toNat - 48

/-- Natural number denoted by a digit string. -/
def natOfDigits (ds : List Char) : Nat := ds.foldl (fun a c => a * 10 + digitVal c) 0

/-- Value of one hexadecimal digit, either case. -/
def hexDigitVal (c : Char) : Option Nat :=
  if c.isDigit then some (digitVal c)
  else
    let l := c.toLower
    if 'a' ≤ l && l ≤ 'f' then some (l.toNat - 87) else none

/-- Value of a four-hex-digit escape body. -/
def hexQuad (ds : List Char) : Option Nat :=
  ds.foldl (fun acc c => acc.bind (fun n => (hexDigitVal c).map (fun v => n * 16 + v)))
    (some 0)

/-- Translation of a one-character string-literal escape. -/
def escChar (e : Char) : Option Char :=
  if e = 'n' then some '\n'
  else if e = 't' then some '\t'
  else if e = 'r' then some '\r'
  else if e = '"' || e = '\\' || e = '/' then some e
  else if e = 'b' then some (Char.ofNat 8)
  else if e = 'f' then some (Char.ofNat 12)
  else none

/-- Read the body of a string literal (the opening quote is already
consumed), returning the decoded characters and the rest of the input.
Raw control characters (below U+0020) fail as in Python's strict mode;
`\uXXXX` escapes are decoded, combining surrogate pairs; a lone
surrogate is idealized to U+FFFD (see the section comment).  Fuelled
by the remaining input length (each step consumes at least one
character). -/
def parseStrChars : Nat → List Char → Option (List Char × List Char)
  | 0, _ => none
  | _ + 1, [] => none
  | _ + 1, '"' :: rest => some ([], rest)
  | fuel + 1, '\\' :: 'u' :: h1 :: h2 :: h3 :: h4 :: rest =>
    (match hexQuad [h1, h2, h3, h4] with
     | none => none
     | some n =>
       if n < 0xD800 || 0xDFFF < n then
         (parseStrChars fuel rest).map (fun p => (Char.ofNat n :: p.1, p.2))
       else if n ≤ 0xDBFF then
         match rest with
         | '\\' :: 'u' :: g1 :: g2 :: g3 :: g4 :: rest2 =>
           (match hexQuad [g1, g2, g3, g4] with
            | none => none
            | some m =>
              if 0xDC00 ≤ m && m ≤ 0xDFFF then
                (parseStrChars fuel rest2).map (fun p =>
                  (Char.ofNat (0x10000 + (n - 0xD800) * 0x400 + (m - 0xDC00)) :: p.1, p.2))
              else (parseStrChars fuel rest).map (fun p => (Char.ofNat 0xFFFD :: p.1, p.2)))
         | _ => (parseStrChars fuel rest).map (fun p => (Char.ofNat 0xFFFD :: p.1, p.2))
       else (parseStrChars fuel rest).map (fun p => (Char.ofNat 0xFFFD :: p.1, p.2)))
  | fuel + 1, '\\' :: e :: rest =>
    (escChar e).bind (fun c => (parseStrChars fuel rest).map (fun p => (c :: p.1, p.2)))
  | fuel + 1, c :: rest =>
    if c = '\\' then none
    else if c.toNat < 32 then none
    else (parseStrChars fuel rest).map (fun p => (c :: p.1, p.2))

/-- Read the optional exponent part of a number: `none` when the number
is malformed at the exponent (`1e` with no digits), otherwise the
exponent's sign and magnitude (zero when absent) and the rest of the
input. -/
def parseExpPart (cs : List Char) : Option (Bool × Nat × List Char) :=
  match cs with
  | 'e' :: r | 'E' :: r =>
    let (eneg, r1) : Bool × List Char :=
      match r with
      | '+' :: r2 => (false, r2)
      | '-' :: r2 => (true, r2)
      | _ => (false, r)
    let (expDs, r2) := r1.span Char.isDigit
    if expDs.isEmpty then none else some (eneg, natOfDigits expDs, r2)
  | _ => some (false, 0, cs)

/-- The rational `±(mag / scale) × 10^(±emag)`, assembled with natural
arithmetic only (so that concrete parses reduce in the kernel). -/
def decimalVal (neg : Bool) (mag scale : Nat) (eneg : Bool) (emag : Nat) : Rat :=
  let mag2 : Nat := if eneg then mag else mag * 10 ^ emag
  let scale2 : Nat := if eneg then scale * 10 ^ emag else scale
  mkRat (if neg then -(mag2 : Int) else (mag2 : Int)) scale2

/-- Read a number per the JSON grammar: optional minus, an integer part
with no leading zero, an optional fraction with at least one digit, an
optional exponent with at least one digit. -/
def parseNum (cs : List Char) : Option (Rat × List Char) :=
  let neg : Bool := cs.head? = some '-'
  let cs1 := if neg then cs.drop 1 else cs
  let (intDs, cs2) := cs1.span Char.isDigit
  if intDs.isEmpty then none
  else if intDs.head? = some '0' && 1 < intDs.length then none
  else
    let (fracDs, cs3) :=
      match cs2 with
      | '.' :: r => r.span Char.isDigit
      | _ => ([], cs2)
    if cs2.head? = some '.' && fracDs.isEmpty then none
    else
      match parseExpPart cs3 with
      | none => none
      | some (eneg, emag, cs4) =>
        let scale : Nat := 10 ^ fracDs.length
        let mag : Nat := natOfDigits intDs * scale + natOfDigits fracDs
        some (decimalVal neg mag scale eneg emag, cs4)

/-- Python-dict insertion of one key/value pair: a repeated key keeps
its first position but takes the new value; a fresh key is appended. -/
def dictInsert (acc : List (String × Json)) (k : String) (v : Json) :
    List (String × Json) :=
  if acc.any (fun kv => kv.1 = k) then
    acc.map (fun kv => if kv.1 = k then (k, v) else kv)
  else acc ++ [(k, v)]

/-- Collapse the parsed field list into a Python dict: duplicate keys
are last-wins on value, first-wins on position. -/
def dictOfFields (kvs : List (String × Json)) : List (String × Json) :=
  kvs.foldl (fun acc kv => dictInsert acc kv.1 kv.2) []

mutual

/-- Read one JSON value. -/
def parseVal : Nat → List Char → Option (Json × List Char)
  | 0, _ => none
  | fuel + 1, cs =>
    match skipWs cs with
    | 'n' :: 'u' :: 'l' :: 'l' :: rest => some (.null, rest)
    | 't' :: 'r' :: 'u' :: 'e' :: rest => some (.bool true, rest)
    | 'f' :: 'a' :: 'l' :: 's' :: 'e' :: rest => some (.bool false, rest)
    | 'N' :: 'a' :: 'N' :: rest => some (.nan, rest)
    | 'I' :: 'n' :: 'f' :: 'i' :: 'n' :: 'i' :: 't' :: 'y' :: rest =>
      some (.inf false, rest)
    | '-' :: 'I' :: 'n' :: 'f' :: 'i' :: 'n' :: 'i' :: 't' :: 'y' :: rest =>
      some (.inf true, rest)
    | '"' :: rest => (parseStrChars rest.length rest).map (fun p => (.str (String.mk p.1), p.2))
    | '[' :: rest =>
      match skipWs rest with
      | ']' :: rest2 => some (.arr [], rest2)
      | rest2 => (parseItems fuel rest2).map (fun p => (.arr p.1, p.2))
    | '\x7b' :: rest =>
      match skipWs rest with
      | '\x7d' :: rest2 => some (.obj [], rest2)
      | rest2 => (parseFields fuel rest2).map (fun p => (.obj (dictOfFields p.1), p.2))
    | cs2 => (parseNum cs2).map (fun p => (.num p.1, p.2))

/-- Read the comma-separated items of a non-empty array, up to and
including the closing bracket. -/
def parseItems : Nat → List Char → Option (List Json × List Char)
  | 0, _ => none
  | fuel + 1, cs =>
    (parseVal fuel cs).bind (fun p =>
      match skipWs p.2 with
      | ',' :: rest => (parseItems fuel rest).map (fun q => (p.1 :: q.1, q.2))
      | ']' :: rest => some ([p.1], rest)
      | _ => none)

/-- Read the comma-separated fields of a non-empty object, up to and
including the closing brace. -/
def parseFields : Nat → List Char → Option (List (String × Json) × List Char)
  | 0, _ => none
  | fuel + 1, cs =>
    match skipWs cs with
    | '"' :: rest =>
      (parseStrChars rest.length rest).bind (fun kp =>
        match skipWs kp.2 with
        | ':' :: rest2 =>
          (parseVal fuel rest2).bind (fun vp =>
            match skipWs vp.2 with
            | ',' :: rest3 =>
              (parseFields fuel rest3).map
                (fun q => ((String.mk kp.1, vp.1) :: q.1, q.2))
            | '\x7d' :: rest3 => some ([(String.mk kp.1, vp.1)], rest3)
            | _ => none)
        | _ => none)
    | _ => none

end

/-- Embedding of `json.loads`: the whole payload must be one JSON value
surrounded by at most whitespace, otherwise the result is `none`
(Python `json.JSONDecodeError`). -/
def jsonLoads (s : String) : Option Json :=
  match parseVal (s.length + 1) s.data with
  | some (j, rest) => if (skipWs rest).isEmpty then some j else none
  | none => none

/-! ### Embedding of the pandas fragment the pipeline uses

A DataFrame is a column list plus rows aligned with it; a cell is
`Option Json` where `none` stands for a missing value (NaN/NaT/None after
coercion). -/

/-- One DataFrame cell; `none` is a missing value. -/
abbrev Cell := Option Json

/-- A pandas DataFrame: ordered column labels and rows aligned with them. -/
structure Frame where
  cols : List String
  rows : List (List Cell)

/-- Well-formed frame: every row has one cell per column. -/
def Frame.WF (f : Frame) : Prop := ∀ r ∈ f.rows, r.length = f.cols.length

instance (f : Frame) : Decidable f.WF := by
  unfold Frame.WF; infer_instance

/-- Cells of one column, top to bottom. -/
def Frame.col (f : Frame) (c : String) : List Cell :=
  f.rows.map (fun r => (r.get? (f.cols.indexOf c)).getD none)

/-- Replace cell `i` of a row with `g` of it. -/
def modifyNth (g : Cell → Cell) : Nat → List Cell → List Cell
  | _, [] => []
  | 0, x :: xs => g x :: xs
  | n + 1, x :: xs => x :: modifyNth g n xs

/-- Apply `g` to every cell of column `c` (used for the
`df[c] = coercion(df[c])` statements of the source). -/
def Frame.mapCol (f : Frame) (c : String) (g : Cell → Cell) : Frame :=
  ⟨f.cols, f.rows.map (modifyNth g (f.cols.indexOf c))⟩

/-- Set column `c` of every row to the constant value `v`, appending the
column when absent (the `df[c] = scalar` statement of the source). -/
def Frame.setColScalar (f : Frame) (c : String) (v : Cell) : Frame :=
  if c ∈ f.cols then ⟨f.cols, f.rows.map (fun r => r.set (f.cols.indexOf c) v)⟩
  else ⟨f.cols ++ [c], f.rows.map (fun r => r ++ [v])⟩

/-- Set column `c` from a list of values, row `i` receiving `vs[i]`
(the `df[c] = list` statement of the source, whose length the source
checks before assigning). -/
def Frame.setColList (f : Frame) (c : String) (vs : List Json) : Frame :=
  if c ∈ f.cols then
    ⟨f.cols, (f.rows.zip vs).map (fun p => p.1.set (f.cols.indexOf c) (some p.2))⟩
  else ⟨f.cols ++ [c], (f.rows.zip vs).map (fun p => p.1 ++ [some p.2])⟩

/-- Column labels of `pd.DataFrame(list of dicts)`: the union of the
record keys in order of first appearance. -/
def keyUnion (ts : List Json) : List String :=
  ts.foldl (fun acc t => acc ++ (t.keys.filter (fun k => k ∉ acc))) []

/-- Embedding of `pd.DataFrame(ts)` for a list of dicts: one row per
record, a missing key giving a missing cell. -/
def recordsFrame (ts : List Json) : Frame :=
  let cols := keyUnion ts
  ⟨cols, ts.map (fun t => cols.map (fun c => t.getKey c))⟩

/-- Embedding of the `pd.DataFrame(x)` constructor on the value shapes
the transformation pipeline can receive: a list of dicts builds a
record frame; a list of scalars builds a one-column frame whose
integer label 0 is rendered here as the string `0` (membership tests
for `amount`/`date` still correctly fail on it); `None` builds an
empty zero-column frame; a dict whose list values share one length
builds a column frame, scalar dict values broadcasting down it; a bare
scalar raises `ValueError`.  Rows that mix dicts with non-dicts, and
dict values that are themselves dicts, are outside the modelled
fragment (no theorem below instantiates them) and map to an error. -/
def pdDataFrame : Json → Except PyError Frame
  | .null => .ok ⟨[], []⟩
  | .arr ts =>
    if ts.all Json.isObj then .ok (recordsFrame ts)
    else if ts.all Json.isScalar then
      .ok ⟨["0"], ts.map (fun t => [some t])⟩
    else .error .typeError
  | .obj kvs =>
    if kvs.any (fun kv => kv.2.isObj) then
      .error .typeError
    else
      match (kvs.filterMap (fun kv =>
        match kv.2 with | .arr xs => some xs.length | _ => none)) with
      | [] =>
        if kvs.isEmpty then .ok ⟨[], []⟩
        else .error (.valueError ("If using all scalar values, you must pass an index"))
      | n :: rest =>
        if rest.all (fun m => m = n) then
          .ok ⟨kvs.map (fun kv => kv.1),
               (List.range n).map (fun i =>
                 kvs.map (fun kv =>
                   match kv.2 with
                   | .arr xs => xs.get? i
                   | v => some v))⟩
        else .error (.valueError ("All arrays must be of the same length"))
  | _ => .error (.valueError ("If using all scalar values, you must pass an index"))

/-- A Python numeric value: a finite rational, or a non-finite float. -/
inductive PyNum where
  | rat (q : Rat)
  | nan
  | inf (neg : Bool)
  deriving DecidableEq

/-- Whether a character is ASCII whitespace as stripped by Python's
numeric string conversions. -/
def pyWs (c : Char) : Bool :=
  c = ' ' || c = '\t' || c = '\n' || c = '\r' || c = Char.ofNat 11 || c = Char.ofNat 12

/-- Strip leading and trailing ASCII whitespace. -/
def trimPyWs (cs : List Char) : List Char :=
  ((cs.dropWhile pyWs).reverse.dropWhile pyWs).reverse

/-- Remove the digit-group underscores Python's `float` accepts: each
underscore must sit directly between two digits. -/
def deUnderscore (prev : Option Char) : List Char → Option (List Char)
  | [] => some []
  | c :: rest =>
    if c = '_' then
      match prev, rest with
      | some p, nxt :: _ =>
        if p.isDigit && nxt.isDigit then deUnderscore (some c) rest else none
      | _, _ => none
    else (deUnderscore (some c) rest).map (fun l => c :: l)

/-- Case-insensitively compare against an ASCII word. -/
def ciWord (cs : List Char) (w : String) : Bool := cs.map Char.toLower = w.data

/-- Shared grammar of Python's numeric string conversions (`float` and
pandas' `to_numeric` parser): optional sign, `inf`/`infinity`/`nan`
words (any case), or digits with an optional point — at least one digit
overall, on either side of the point — and an optional exponent;
`allowUnderscore` enables the digit-group underscores only `float`
accepts.  Surrounding ASCII whitespace is stripped.  Non-ASCII digits
and locale forms are outside the modelled fragment. -/
def strToNum (allowUnderscore : Bool) (s : String) : Option PyNum :=
  let cs := trimPyWs s.data
  let neg : Bool := cs.head? = some '-'
  let cs1 := if cs.head? = some '-' || cs.head? = some '+' then cs.drop 1 else cs
  if ciWord cs1 ("inf") || ciWord cs1 ("infinity") then some (.inf neg)
  else if ciWord cs1 ("nan") then some (.nan)
  else
    match (if allowUnderscore then deUnderscore none cs1
           else if cs1.contains '_' then none else some cs1) with
    | none => none
    | some cs2 =>
      let (intDs, r1) := cs2.span Char.isDigit
      let (fracDs, r2) :=
        match r1 with
        | '.' :: rr => rr.span Char.isDigit
        | _ => ([], r1)
      if intDs.isEmpty && fracDs.isEmpty then none
      else
        match parseExpPart r2 with
        | none => none
        | some (eneg, emag, r3) =>
          if r3.isEmpty then
            let scale : Nat := 10 ^ fracDs.length
            let mag : Nat := natOfDigits intDs * scale + natOfDigits fracDs
            some (.rat (decimalVal neg mag scale eneg emag))
          else none

/-- The numeric-string grammar of pandas `to_numeric` (no underscores). -/
def pdNumStr (s : String) : Option PyNum := strToNum false s

/-- The numeric-string grammar of Python's built-in `float`. -/
def pyFloatStr (s : String) : Option PyNum := strToNum true s

/-- Embedding of elementwise `pd.to_numeric(x, errors='coerce')`:
finite numbers stay (idealized to exact rationals — float64 rounding
and overflow are not modelled), NaN is missing, infinities stay,
booleans become 0/1, numeric strings parse by the pandas grammar
(exponents included), everything else (including `None`) coerces to
missing — never to a default value. -/
def pdToNumeric : Cell → Cell
  | none => none
  | some (.num q) => some (.num q)
  | some (.bool b) => some (.num (if b then 1 else 0))
  | some (.str s) =>
    match pdNumStr s with
    | some (.rat q) => some (.num q)
    | some (.inf b) => some (.inf b)
    | some (.nan) => none
    | none => none
  | some (.nan) => none
  | some (.inf b) => some (.inf b)
  | some .null => none
  | some (.arr _) => none
  | some (.obj _) => none

/-- Gregorian leap year. -/
def isLeap (y : Nat) : Bool := (y % 4 = 0 && y % 100 ≠ 0) || y % 400 = 0

/-- Days in a month. -/
def daysInMonth (y m : Nat) : Nat :=
  if m = 2 then (if isLeap y then 29 else 28)
  else if m = 4 || m = 6 || m = 9 || m = 11 then 30 else 31

/-- Split a character list on dashes (a kernel-reducible stand-in for
`str.split('-')`; the date strings `pd.to_datetime` receives here are
validated against the calendar and the interior of the pandas
nanosecond `Timestamp` range — its exact bounds fall mid-1677 and
mid-2262, so years 1678-2261 are entirely in range, and that is the
fragment the theorems below quantify over). -/
def splitDash : List Char → List (List Char)
  | [] => [[]]
  | '-' :: rest => [] :: splitDash rest
  | c :: rest =>
    match splitDash rest with
    | [] => [[c]]
    | p :: ps => (c :: p) :: ps

/-- Read a `Y-M-D` date string into its three numeric fields. -/
def parseIsoDate (s : String) : Option (Nat × Nat × Nat) :=
  match splitDash s.data with
  | [ys, ms, ds] =>
    if !ys.isEmpty && ys.all Char.isDigit &&
       !ms.isEmpty && ms.all Char.isDigit &&
       !ds.isEmpty && ds.all Char.isDigit then
      let y := natOfDigits ys
      let m := natOfDigits ms
      let d := natOfDigits ds
      if 1678 ≤ y && y ≤ 2261 && 1 ≤ m && m ≤ 12 && 1 ≤ d && d ≤ daysInMonth y m then
        some (y, m, d)
      else none
    else none
  | _ => none

/-- Zero-pad to two digits. -/
def pad2 (n : Nat) : String := if n < 10 then "0" ++ toString n else toString n

/-- Zero-pad to four digits. -/
def pad4 (n : Nat) : String :=
  if n < 10 then "000" ++ toString n
  else if n < 100 then "00" ++ toString n
  else if n < 1000 then "0" ++ toString n
  else toString n

/-- Embedding of elementwise
`pd.to_datetime(x, errors='coerce').dt.strftime('%Y-%m-%d')` on the
modelled fragment: ISO `Y-M-D` strings re-render zero-padded, anything
else (including `None` and unparseable strings) coerces to missing —
never to a default date.  Non-ISO date spellings and numeric timestamps
are outside the modelled fragment (no theorem below instantiates one). -/
def pdToDateCell : Cell → Cell
  | some (.str s) =>
    match parseIsoDate s with
    | some (y, m, d) => some (.str (pad4 y ++ "-" ++ pad2 m ++ "-" ++ pad2 d))
    | none => none
  | _ => none

/-- The date-cell fragment on which `pdToDateCell` is faithful to
`pd.to_datetime(errors='coerce')`: a missing cell, a `None`, or an ISO
`Y-M-D` string inside the supported range.  Non-ISO spellings the
flexible pandas parser may accept, and numeric epoch timestamps, are
outside it. -/
def isoDateCell : Cell → Bool
  | none => true
  | some .null => true
  | some (.str s) => (parseIsoDate s).isSome
  | _ => false

/-- A cell holding no container: the pandas column coercions
(`to_numeric`, `to_datetime`) raise on list- or dict-valued elements
even under `errors='coerce'`, so the success-shape theorems keep
`amount` and `date` cells scalar. -/
def scalarCell : Cell → Bool
  | none => true
  | some v => v.isScalar

/-! ### Embedding of `src/parsers/gpt_parser.py`

Network calls to the model are abstracted as inputs of type
`Except PyError String`: the message content the call produced, or the
exception the client raised.  Prompt construction is embedded separately
(`transactionListPrompt`, `detectPrompt`) since the pipeline's behaviour
depends on the response, not on the prompt text. -/

/-- The empty fallback DataFrame
`pd.DataFrame(columns=['date', 'description', 'amount'])` returned by
every `except` branch of the parsing pipeline. -/
def emptyFrame3 : Frame := ⟨["date", "description", "amount"], []⟩

/-- Python `content[:n]`: the prefix of at most `n` characters. -/
def pySlice (s : String) (n : Nat) : String := String.mk (s.data.take n)

/-- Text of the transaction-list extraction prompt before the embedded
document content (prose abridged; the claims depend on the structure
`pre ++ content[:8000] ++ post`, not on the wording). -/
def txPromptPre : String :=
  "Extract transaction data from the following financial document. Return ONLY a JSON object. Document content:\n            "

/-- Text of the transaction-list extraction prompt after the embedded
document content. -/
def txPromptPost : String := "  # Limit content to avoid token limits\n            "

/-- Embedding of the user prompt built by `_parse_transaction_list`: the
document content is truncated to its first 8000 characters before being
embedded. -/
def transactionListPrompt (content : String) : String :=
  txPromptPre ++ pySlice content 8000 ++ txPromptPost

/-- Text of the document-type detection prompt before the embedded
content (prose abridged). -/
def dtPromptPre : String :=
  "Analyze the following financial document content and determine its type. Document content:\n            "

/-- Text of the document-type detection prompt after the embedded content. -/
def dtPromptPost : String := "  # Limit content to avoid token limits\n            "

/-- Embedding of the user prompt built by `detect_document_type`: the
document content is truncated to its first 4000 characters. -/
def detectPrompt (content : String) : String :=
  dtPromptPre ++ pySlice content 4000 ++ dtPromptPost

/-- Embedding of the shared response-processing body of
`_parse_transaction_list`, `_parse_profit_and_loss`,
`_parse_balance_sheet` and `_parse_generic_financial_data` (the four
differ only in prompt text): load the response as JSON, take the
`transactions` value, build a DataFrame from it, coerce the `amount` and
`date` columns when present; any exception on the way (client error,
invalid JSON, missing key, constructor failure) is caught and the empty
three-column fallback frame is returned. -/
def parseViaModel (resp : Except PyError String) : Frame :=
  match resp with
  | .error _ => emptyFrame3
  | .ok content =>
    match jsonLoads content with
    | none => emptyFrame3
    | some j =>
      match j.getKey ("transactions") with
      | none => emptyFrame3
      | some v =>
        match pdDataFrame v with
        | .error _ => emptyFrame3
        | .ok df =>
          let df1 := if "amount" ∈ df.cols then df.mapCol ("amount") pdToNumeric else df
          if "date" ∈ df1.cols then df1.mapCol ("date") pdToDateCell else df1

/-- Embedding of `detect_document_type`: returns the `document_type`
value of the response, or the string `Unknown` when the call failed, the
response was not valid JSON, or the key was absent (the function catches
every exception and returns `"Unknown"`). -/
def detectDocumentType (resp : Except PyError String) : Json :=
  match resp with
  | .error _ => .str ("Unknown")
  | .ok s =>
    match jsonLoads s with
    | none => .str ("Unknown")
    | some j =>
      match j.getKey ("document_type") with
      | some v => v
      | none => .str ("Unknown")

/-- Document types routed to `_parse_transaction_list`. -/
def txTypeNames : List String := ["transaction list", "transactions"]

/-- Document types routed to `_parse_profit_and_loss`. -/
def plTypeNames : List String :=
  ["profit and loss statement", "profit and loss", "income statement"]

/-- Document types routed to `_parse_balance_sheet`. -/
def bsTypeNames : List String := ["balance sheet"]

/-- Embedding of `parse_financial_document`: extract content, detect the
document type, and dispatch to the per-type parsing routine (whose
response processing is the shared `parseViaModel`); any exception —
extraction failure, or `.lower()` on a non-string detected type — is
caught and the empty three-column fallback frame returned. -/
def parseFinancialDocument (extracted : Except PyError String)
    (detectResp : Except PyError String) (txResp : Except PyError String) : Frame :=
  match extracted with
  | .error _ => emptyFrame3
  | .ok _content =>
    match detectDocumentType detectResp with
    | .str t =>
      let tl := pyLower t
      if tl ∈ txTypeNames then parseViaModel txResp
      else if tl ∈ plTypeNames then parseViaModel txResp
      else if tl ∈ bsTypeNames then parseViaModel txResp
      else parseViaModel txResp
    | _ => emptyFrame3

/-- Embedding of `GPTFinancialParser.__init__`: raises `ValueError` when
no API key is resolvable from the environment or the secrets store. -/
def gptParserInit (apiKey : Option String) : Except PyError Unit :=
  match apiKey with
  | some _ => .ok ()
  | none =>
    .error (.valueError
      ("OpenAI API key not found. Please set the OPENAI_API_KEY environment variable."))

/-- Embedding of the module-level `parse_with_gpt`: construct the parser
and run the pipeline; any exception (including the missing-credential
`ValueError` of the constructor) is caught and the empty three-column
fallback frame returned. -/
def parseWithGpt (apiKey : Option String) (extracted : Except PyError String)
    (detectResp : Except PyError String) (txResp : Except PyError String) : Frame :=
  match gptParserInit apiKey with
  | .error _ => emptyFrame3
  | .ok _ => parseFinancialDocument extracted detectResp txResp

/-- Index of the last occurrence of `c`. -/
def lastIndexOf (c : Char) (cs : List Char) : Option Nat :=
  (cs.foldl (fun st ch => (st.1 + 1, if ch = c then some st.1 else st.2))
    ((0, none) : Nat × Option Nat)).2

/-- Embedding of `os.path.splitext` on POSIX paths: split at the last
dot of the final component, unless only dots precede it there (leading
dots never begin an extension). -/
def splitext (path : String) : String × String :=
  let cs := path.data
  let base0 : Nat :=
    match lastIndexOf '/' cs with
    | some i => i + 1
    | none => 0
  match lastIndexOf '.' cs with
  | some p =>
    if base0 ≤ p && ((cs.drop base0).take (p - base0)).any (fun ch => ch ≠ '.') then
      (String.mk (cs.take p), String.mk (cs.drop p))
    else (path, "")
  | none => (path, "")

/-- The extraction strategy `extract_file_content` dispatches to. -/
inductive ExtractRoute where
  | excel
  | csv
  | pdf
  | image
  deriving DecidableEq

/-- Embedding of the dispatch of `extract_file_content`: lower-case the
extension and route on it; an unsupported extension raises `ValueError`
naming it.  The format-specific readers themselves are file I/O and are
abstracted as the chosen route. -/
def extractFileContent (path : String) : Except PyError ExtractRoute :=
  let ext := pyLower (splitext path).2
  if ext = ".xlsx" || ext = ".xls" then .ok .excel
  else if ext = ".csv" then .ok .csv
  else if ext = ".pdf" then .ok .pdf
  else if ext = ".jpg" || ext = ".jpeg" || ext = ".png" then .ok .image
  else .error (.valueError ("Unsupported file type: " ++ ext))

/-! ### Embedding of `src/parsers/openai_integration.py`

`categorize_transactions` can return either the caller's own DataFrame
object (mutated in place) or a fresh copy; the embedding therefore
returns, besides the returned frame's value, the final value of the
caller's argument object and whether the returned object IS the argument
object, plus whether a model request was issued. -/

/-- The placeholder category value. -/
def uncategorized : Json := .str ("Uncategorized")

/-- Observable outcome of one `categorize_transactions` call. -/
structure CatResult where
  returned : Frame
  finalInput : Frame
  returnedIsInput : Bool
  calledModel : Bool

/-- Whether Python `float(x)` succeeds on a cell (`float` of NaN or an
infinity is itself, of a bool 0.0/1.0, of a numeric string its value;
`None`, non-numeric strings and containers raise). -/
def floatable : Cell → Bool
  | none => true
  | some (.num _) => true
  | some (.bool _) => true
  | some (.str s) => (pyFloatStr s).isSome
  | some (.nan) => true
  | some (.inf _) => true
  | some .null => false
  | some (.arr _) => false
  | some (.obj _) => false

/-- Whether the per-row `'date'/'description'/'amount'` reads and the
`float(row['amount'])` conversions of the batch-building loop all
succeed.  A frame with no rows is vacuously convertible — the loop body
never runs, whatever the columns. -/
def rowsConvertible (f : Frame) : Bool :=
  f.rows.isEmpty ||
  (("date" ∈ f.cols : Bool) && ("description" ∈ f.cols : Bool) &&
   ("amount" ∈ f.cols : Bool) && (f.col ("amount")).all floatable)

/-- The amount-cell fragment on which `floatable` is faithful to
Python's `float`: anything but a string, or an ASCII string without
digit-group underscores (ruling out the underscore and non-ASCII-digit
spellings `float` additionally accepts). -/
def floatFragment : Cell → Bool
  | some (.str s) => s.data.all (fun c => c.toNat < 128 && c ≠ '_')
  | _ => true

/-- First object field holding a list, per the source's fallback scan
over `response_json.items()`. -/
def firstListValue : Json → Option Json
  | .obj kvs => ((kvs.find? (fun kv => kv.2.isArr)).map (fun kv => kv.2))
  | _ => none

/-- The categories value the source extracts from the parsed response:
the `categories` field if present (regardless of its type), else the
first list-valued field. -/
def extractCategories (j : Json) : Option Json :=
  match j.getKey ("categories") with
  | some v => some v
  | none => firstListValue j

/-- Python `len(x)` on a JSON value: strings, lists and dicts have a
length, other values raise `TypeError`. -/
def pyLen : Json → Except PyError Nat
  | .str s => .ok s.length
  | .arr xs => .ok xs.length
  | .obj kvs => .ok kvs.length
  | _ => .error .typeError

/-- The `result_df['category'] = categories` assignment when the length
check passed: a list assigns elementwise, a string broadcasts as a
scalar, a dict aligns on its keys against the integer index and yields a
missing-valued column. -/
def setCategoryFrom (f : Frame) (v : Json) : Frame :=
  match v with
  | .arr cs => f.setColList ("category") cs
  | .str s => f.setColScalar ("category") (some (.str s))
  | .obj _ => f.setColScalar ("category") none
  | _ => f

/-- Body of `categorize_transactions` up to (but excluding) the
top-level exception handler.  An `.error` is an exception that escapes
to that handler; the `Bool` it carries records whether the model request
had been issued by then. -/
def categorizeRaw (apiKey : Option String) (input : Frame)
    (call : Except PyError String) : Except (PyError × Bool) CatResult :=
  match apiKey with
  | none =>
    .ok ⟨input.setColScalar ("category") (some uncategorized),
         input.setColScalar ("category") (some uncategorized), true, false⟩
  | some _ =>
    let result0 := input.setColScalar ("category") (some (.str ("")))
    if rowsConvertible result0 then
      match call with
      | .error e => .error (e, true)
      | .ok content =>
        match jsonLoads content with
        | none =>
          .ok ⟨result0.setColScalar ("category") (some uncategorized), input, false, true⟩
        | some j =>
          if j.isObj then
            match extractCategories j with
            | none =>
              .ok ⟨result0.setColScalar ("category") (some uncategorized), input, false, true⟩
            | some cats =>
              match pyLen cats with
              | .error e => .error (e, true)
              | .ok n =>
                if n = result0.rows.length then
                  .ok ⟨setCategoryFrom result0 cats, input, false, true⟩
                else
                  .ok ⟨result0.setColScalar ("category") (some uncategorized), input, false, true⟩
          else .error (.typeError, true)
    else .error (.keyError, false)

/-- Embedding of `categorize_transactions`: the body, wrapped in the
top-level handler, which assigns the placeholder category onto the
caller's own DataFrame and returns that same object. -/
def categorize (apiKey : Option String) (input : Frame)
    (call : Except PyError String) : CatResult :=
  match categorizeRaw apiKey input call with
  | .ok r => r
  | .error e =>
    ⟨input.setColScalar ("category") (some uncategorized),
     input.setColScalar ("category") (some uncategorized), true, e.2⟩

/-! ### The schema reconciler (spec-modelled)

No reconciliation or defaulting step exists under `src/`: the revised
five-column transformation parser the packaging scripts describe is not
part of the checked-in sources, so the reconciler of spec section 4.3 is
modelled from the spec here. -/

/-- Modelled from the spec: one unvalidated provisional record after the
field-name mapping of spec section 4.3, each canonical or auxiliary
field possibly absent (the reconciler of the revised five-column parser
is missing from `src/`). -/
structure Provisional where
  date : Option String
  amount : Option Rat
  main_category : Option String
  subcategory : Option String
  description : Option String
  entity : Option String
  period : Option String
  deriving DecidableEq

/-- Modelled from the spec: one canonical record, all five required
fields populated, with the auxiliary fields retained as pass-through
payload. -/
structure Canonical where
  date : String
  amount : Rat
  main_category : String
  subcategory : String
  description : String
  entity : Option String
  period : Option String
  deriving DecidableEq

/-- Modelled from the spec: the description synthesized from whichever
of entity, subcategory and period are present, joined as
`entity - subcategory (period)`, falling back to the subcategory, else
`Unknown`.  (When the subcategory is absent the spec fixes no joining
rule; the entity with the period suffix is used, else `Unknown`.) -/
def synthDescription (entity subcat period : Option String) : String :=
  match subcat with
  | some s =>
    (match entity with
     | some e => e ++ " - " ++ s
     | none => s) ++
    (match period with
     | some p => " (" ++ p ++ ")"
     | none => "")
  | none =>
    match entity with
    | some e =>
      e ++ (match period with
            | some p => " (" ++ p ++ ")"
            | none => "")
    | none => "Unknown"

/-- Modelled from the spec: reconcile one provisional record, filling
each absent canonical field with its fixed default — the current
processing date, amount 0.0, main category `Uncategorized`, subcategory
`Unknown`, and a synthesized description. -/
def reconcile (today : String) (r : Provisional) : Canonical :=
  { date := r.date.getD today
    amount := r.amount.getD 0
    main_category := r.main_category.getD ("Uncategorized")
    subcategory := r.subcategory.getD ("Unknown")
    description := r.description.getD (synthDescription r.entity r.subcategory r.period)
    entity := r.entity
    period := r.period }

/-- Modelled from the spec: reconcile a provisional table record by
record. -/
def reconcileList (today : String) (rs : List Provisional) : List Canonical :=
  rs.map (reconcile today)

/-- An already-canonical record re-read as a provisional one: every
canonical field present, the auxiliary payload carried along. -/
def Canonical.toProvisional (c : Canonical) : Provisional :=
  { date := some c.date
    amount := some c.amount
    main_category := some c.main_category
    subcategory := some c.subcategory
    description := some c.description
    entity := c.entity
    period := c.period }

/-! ### Frame lemmas -/

lemma indexOf_append_not_mem (c : String) (cols : List String) (h : c ∉ cols) :
    (cols ++ [c]).indexOf c = cols.length := by
  induction cols with
  | nil => simp [List.indexOf_cons]
  | cons a as ih =>
    have hne : (a == c) = false := by
      simp only [beq_eq_false_iff_ne]
      exact fun hac => h (hac ▸ List.mem_cons_self a as)
    simp only [List.cons_append, List.indexOf_cons, hne, cond_false, List.length_cons]
    rw [ih (fun hm => h (List.mem_cons_of_mem a hm))]

lemma setColScalar_mem_cols (f : Frame) (c : String) (v : Cell) :
    c ∈ (f.setColScalar c v).cols := by
  unfold Frame.setColScalar
  by_cases hc : c ∈ f.cols
  · simp [hc]
  · simp [hc]

lemma setColScalar_col (f : Frame) (c : String) (v : Cell) (hwf : f.WF) :
    (f.setColScalar c v).col c = List.replicate f.rows.length v := by
  unfold Frame.setColScalar Frame.col
  by_cases hc : c ∈ f.cols
  · simp only [hc, if_true, List.map_map]
    have hidx : f.cols.indexOf c < f.cols.length := List.indexOf_lt_length.mpr hc
    have hstep : ∀ r ∈ f.rows,
        (((r.set (f.cols.indexOf c) v).get? (f.cols.indexOf c)).getD none) = v := by
      intro r hr
      have : f.cols.indexOf c < r.length := by rw [hwf r hr]; exact hidx
      rw [List.get?_eq_getElem?, List.getElem?_set_self this]
      rfl
    calc f.rows.map ((fun r => (r.get? (f.cols.indexOf c)).getD none) ∘
          (fun r => r.set (f.cols.indexOf c) v))
        = f.rows.map (fun _ => v) := List.map_congr_left (by simpa using hstep)
      _ = List.replicate f.rows.length v := by
          rw [show (fun _ => v) = Function.const (List Cell) v from rfl, List.map_const]
  · simp only [hc, if_false, List.map_map]
    rw [indexOf_append_not_mem c f.cols hc]
    have hstep : ∀ r ∈ f.rows,
        (((r ++ [v]).get? f.cols.length).getD none) = v := by
      intro r hr
      have hlen : r.length ≤ f.cols.length := by rw [hwf r hr]
      rw [List.get?_eq_getElem?, List.getElem?_append_right (by rw [hwf r hr])]
      rw [hwf r hr]
      simp
    calc f.rows.map ((fun r => (r.get? f.cols.length).getD none) ∘ (fun r => r ++ [v]))
        = f.rows.map (fun _ => v) := List.map_congr_left (by simpa using hstep)
      _ = List.replicate f.rows.length v := by
          rw [show (fun _ => v) = Function.const (List Cell) v from rfl, List.map_const]

lemma setColScalar_rows_length (f : Frame) (c : String) (v : Cell) :
    (f.setColScalar c v).rows.length = f.rows.length := by
  unfold Frame.setColScalar
  split <;> simp

lemma setColScalar_WF (f : Frame) (c : String) (v : Cell) (hwf : f.WF) :
    (f.setColScalar c v).WF := by
  unfold Frame.setColScalar Frame.WF at *
  by_cases hc : c ∈ f.cols
  · simp only [hc, if_true, List.mem_map]
    rintro r ⟨r0, hr0, rfl⟩
    rw [List.length_set]
    exact hwf r0 hr0
  · simp only [hc, if_false, List.mem_map]
    rintro r ⟨r0, hr0, rfl⟩
    simp [hwf r0 hr0]

/-! ### Claim theorems -/

/-- C3: for every provisional record, reconciliation fills each absent
canonical field with its fixed default (current processing date, 0.0,
`Uncategorized`, `Unknown`) and synthesizes the description as
`entity - subcategory (period)` from whichever attributes are present;
a record with only subcategory `Sales Revenue` and period `March 2025`
yields `Sales Revenue (March 2025)`, the entity segment omitted. -/
theorem c3_reconcile_defaults (today : String) (r : Provisional) :
    (r.date = none → (reconcile today r).date = today) ∧
    (r.amount = none → (reconcile today r).amount = 0) ∧
    (r.main_category = none → (reconcile today r).main_category = "Uncategorized") ∧
    (r.subcategory = none → (reconcile today r).subcategory = "Unknown") ∧
    (r.description = none →
      (reconcile today r).description = synthDescription r.entity r.subcategory r.period) ∧
    (∀ e s p, synthDescription (some e) (some s) (some p) =
      e ++ " - " ++ s ++ " (" ++ p ++ ")") ∧
    (∀ s p, synthDescription none (some s) (some p) = s ++ " (" ++ p ++ ")") ∧
    (∀ s, synthDescription none (some s) none = s) ∧
    synthDescription none none none = "Unknown" ∧
    (reconcile today
      { date := none, amount := none, main_category := none,
        subcategory := some ("Sales Revenue"), description := none,
        entity := none, period := some ("March 2025") }).description =
      "Sales Revenue (March 2025)" := by
  refine ⟨?_, ?_, ?_, ?_, ?_, ?_, ?_, ?_, rfl, rfl⟩
  · intro h; simp [reconcile, h]
  · intro h; simp [reconcile, h]
  · intro h; simp [reconcile, h]
  · intro h; simp [reconcile, h]
  · intro h; simp [reconcile, h]
  · intro e s p; simp [synthDescription, String.append_assoc]
  · intro s p; simp [synthDescription, String.append_assoc]
  · intro s; simp [synthDescription]

/-- C3 witness: the defaults at a concrete all-absent record. -/
theorem c3_reconcile_defaults_witness :
    (reconcile ("2025-10-12")
      ⟨none, none, none, none, none, none, none⟩).date = "2025-10-12" ∧
    (reconcile ("2025-10-12")
      ⟨none, none, none, none, none, none, none⟩).amount = 0 ∧
    (reconcile ("2025-10-12")
      ⟨none, none, none, none, none, none, none⟩).main_category = "Uncategorized" ∧
    (reconcile ("2025-10-12")
      ⟨none, none, none, none, none, none, none⟩).subcategory = "Unknown" := by
  obtain ⟨h1, h2, h3, h4, -⟩ :=
    c3_reconcile_defaults ("2025-10-12") ⟨none, none, none, none, none, none, none⟩
  exact ⟨h1 rfl, h2 rfl, h3 rfl, h4 rfl⟩

/-- C9: reconciliation preserves length and position (record `i` of the
output is the reconciliation of record `i` of the input), and re-running
it on an already-canonical record set reproduces that set exactly. -/
theorem c9_reconcile_order_idempotent (today : String)
    (rs : List Provisional) (cs : List Canonical) :
    (reconcileList today rs).length = rs.length ∧
    (∀ i, (reconcileList today rs).get? i = (rs.get? i).map (reconcile today)) ∧
    reconcileList today (cs.map Canonical.toProvisional) = cs := by
  refine ⟨by simp [reconcileList], fun i => by simp [reconcileList], ?_⟩
  unfold reconcileList
  rw [List.map_map]
  have hid : (reconcile today ∘ Canonical.toProvisional) = id := by
    funext c
    cases c
    simp [reconcile, Canonical.toProvisional]
  rw [hid, List.map_id]

/-- C6: the document text embedded in the transaction-extraction request
is `content[:8000]` — a prefix of the content of length at most 8000 —
and in the type-detection request `content[:4000]`; content longer than
8000 characters is never embedded whole in either. -/
theorem c6_truncation (content : String) :
    transactionListPrompt content = txPromptPre ++ pySlice content 8000 ++ txPromptPost ∧
    (pySlice content 8000).data <+: content.data ∧
    (pySlice content 8000).length ≤ 8000 ∧
    (8000 < content.length → pySlice content 8000 ≠ content) ∧
    detectPrompt content = dtPromptPre ++ pySlice content 4000 ++ dtPromptPost ∧
    (pySlice content 4000).data <+: content.data ∧
    (pySlice content 4000).length ≤ 4000 ∧
    (8000 < content.length → pySlice content 4000 ≠ content) := by
  have hlen : ∀ n : Nat, (pySlice content n).length = min n content.length := by
    intro n
    show (content.data.take n).length = _
    rw [List.length_take]
    rfl
  have hne : ∀ n : Nat, n < content.length → pySlice content n ≠ content := by
    intro n hn heq
    have h1 : (pySlice content n).length = content.length := by rw [heq]
    rw [hlen n, min_eq_left (Nat.le_of_lt hn)] at h1
    omega
  refine ⟨rfl, List.take_prefix 8000 content.data, ?_, ?_, rfl,
    List.take_prefix 4000 content.data, ?_, ?_⟩
  · rw [hlen]; exact min_le_left _ _
  · intro h; exact hne 8000 h
  · rw [hlen]; exact min_le_left _ _
  · intro h; exact hne 4000 (by omega)

/-- C6 witness: a 8001-character document is truncated, not sent whole. -/
theorem c6_truncation_witness :
    pySlice (String.mk (List.replicate 8001 'a')) 8000 ≠ String.mk (List.replicate 8001 'a') ∧
    pySlice (String.mk (List.replicate 8001 'a')) 4000 ≠ String.mk (List.replicate 8001 'a') := by
  have h : 8000 < (String.mk (List.replicate 8001 'a')).length := by
    show 8000 < (List.replicate 8001 'a').length
    rw [List.length_replicate]
    omega
  obtain ⟨-, -, -, h4, -, -, -, h8⟩ := c6_truncation (String.mk (List.replicate 8001 'a'))
  exact ⟨h4 h, h8 h⟩

/-- C8: a path whose lower-cased extension is outside the supported set
makes `extract_file_content` raise `ValueError` whose message names that
extension (the extension is a suffix of the message); the error is
returned to the caller directly, with no retry logic. -/
theorem c8_unsupported_extension (path : String)
    (h : pyLower (splitext path).2 ∉
      (([".xlsx", ".xls", ".csv", ".pdf", ".jpg", ".jpeg", ".png"]) : List String)) :
    extractFileContent path =
      .error (.valueError ("Unsupported file type: " ++ pyLower (splitext path).2)) ∧
    (pyLower (splitext path).2).data <:+
      ("Unsupported file type: " ++ pyLower (splitext path).2).data := by
  simp only [List.mem_cons, List.not_mem_nil, or_false, not_or] at h
  obtain ⟨h1, h2, h3, h4, h5, h6, h7⟩ := h
  constructor
  · unfold extractFileContent
    simp [h1, h2, h3, h4, h5, h6, h7]
  · rw [String.data_append]
    exact List.suffix_append _ _

/-- C8 witness: a `.txt` path is rejected with the extension named. -/
theorem c8_unsupported_extension_witness :
    extractFileContent ("report.txt") =
      .error (.valueError ("Unsupported file type: " ++ pyLower (splitext ("report.txt")).2)) ∧
    (pyLower (splitext ("report.txt")).2).data <:+
      ("Unsupported file type: " ++ pyLower (splitext ("report.txt")).2).data :=
  c8_unsupported_extension ("report.txt") (by decide)

/-! ### Failure and success behaviour of the shared response processing -/

lemma parseViaModel_error (e : PyError) : parseViaModel (.error e) = emptyFrame3 := rfl

lemma parseViaModel_badJson (s : String) (h : jsonLoads s = none) :
    parseViaModel (.ok s) = emptyFrame3 := by
  simp only [parseViaModel, h]

lemma parseViaModel_noKey (s : String) (j : Json) (hj : jsonLoads s = some j)
    (hk : j.getKey ("transactions") = none) : parseViaModel (.ok s) = emptyFrame3 := by
  simp only [parseViaModel, hj, hk]

lemma parseViaModel_scalarVal (s : String) (j v : Json) (hj : jsonLoads s = some j)
    (hk : j.getKey ("transactions") = some v) (hs : v.isScalar = true)
    (hn : v ≠ Json.null) : parseViaModel (.ok s) = emptyFrame3 := by
  simp only [parseViaModel, hj, hk]
  cases v with
  | null => exact absurd rfl hn
  | bool b => rfl
  | num q => rfl
  | str t => rfl
  | nan => rfl
  | inf b => rfl
  | arr xs => simp [Json.isScalar] at hs
  | obj kvs => simp [Json.isScalar] at hs

lemma parseViaModel_ok_shape (s : String) (j : Json) (ts : List Json)
    (hl : jsonLoads s = some j) (hk : j.getKey ("transactions") = some (.arr ts))
    (ho : ts.all Json.isObj = true)
    (_hsc : ∀ t ∈ ts, scalarCell (t.getKey ("amount")) = true ∧
      scalarCell (t.getKey ("date")) = true) :
    (parseViaModel (.ok s)).cols = keyUnion ts ∧
    (parseViaModel (.ok s)).rows.length = ts.length := by
  simp only [parseViaModel, hl, hk, pdDataFrame, ho, if_true]
  split_ifs <;> simp [Frame.mapCol, recordsFrame]

/-- C2: amended propagation policy — when the parser was constructed
with a credential, every raising extraction- or transformation-layer
failure (extraction error, model-call error, response not valid JSON,
top-level `transactions` key absent, or its value a non-null scalar that
makes the DataFrame constructor raise) makes `parse_with_gpt` return,
not raise, and the returned table is the empty frame with exactly the
three columns `date`, `description`, `amount`. -/
theorem c2_failure_empty_three_columns (k : String)
    (ex dResp txResp : Except PyError String)
    (h : (∃ e, ex = .error e) ∨ (∃ e, txResp = .error e) ∨
         (∃ s, txResp = .ok s ∧ jsonLoads s = none) ∨
         (∃ s j, txResp = .ok s ∧ jsonLoads s = some j ∧
            j.getKey ("transactions") = none) ∨
         (∃ s j v, txResp = .ok s ∧ jsonLoads s = some j ∧
            j.getKey ("transactions") = some v ∧ v.isScalar = true ∧ v ≠ Json.null)) :
    parseWithGpt (some k) ex dResp txResp = emptyFrame3 ∧
    emptyFrame3.cols = ["date", "description", "amount"] := by
  refine ⟨?_, rfl⟩
  show parseFinancialDocument ex dResp txResp = emptyFrame3
  rcases h with ⟨e, rfl⟩ | h
  · rfl
  · have hm : parseViaModel txResp = emptyFrame3 := by
      rcases h with ⟨e, rfl⟩ | ⟨s, rfl, hl⟩ | ⟨s, j, rfl, hl, hk⟩ |
        ⟨s, j, v, rfl, hl, hk, hs, hn⟩
      · exact parseViaModel_error e
      · exact parseViaModel_badJson s hl
      · exact parseViaModel_noKey s j hl hk
      · exact parseViaModel_scalarVal s j v hl hk hs hn
    cases ex with
    | error e => rfl
    | ok content =>
      show parseFinancialDocument (.ok content) dResp txResp = emptyFrame3
      cases hdt : detectDocumentType dResp with
      | str t =>
        simp only [parseFinancialDocument, hdt]
        split_ifs <;> exact hm
      | null => simp only [parseFinancialDocument, hdt]
      | bool b => simp only [parseFinancialDocument, hdt]
      | num q => simp only [parseFinancialDocument, hdt]
      | nan => simp only [parseFinancialDocument, hdt]
      | inf b => simp only [parseFinancialDocument, hdt]
      | arr xs => simp only [parseFinancialDocument, hdt]
      | obj kvs => simp only [parseFinancialDocument, hdt]

/-- C2 witness: an invalid-JSON model response yields the three-column
empty table through the full pipeline. -/
theorem c2_failure_empty_three_columns_witness :
    parseWithGpt (some ("k")) (.ok ("doc content"))
      (.ok ("\x7b\"document_type\": \"Transaction List\"\x7d")) (.ok ("not json")) =
      emptyFrame3 ∧
    emptyFrame3.cols = ["date", "description", "amount"] :=
  c2_failure_empty_three_columns ("k") (.ok ("doc content"))
    (.ok ("\x7b\"document_type\": \"Transaction List\"\x7d")) (.ok ("not json"))
    (Or.inr (Or.inr (Or.inl ⟨("not json"), rfl, rfl⟩)))

/-- C2 counterexample: the empty table produced on a transformation
failure has the three columns `date, description, amount`, not the five
columns the claim states — `main_category` and `subcategory` are absent
from the fallback column set. -/
theorem c2_counterexample :
    parseWithGpt (some ("k")) (.ok ("doc content"))
      (.ok ("\x7b\"document_type\": \"Transaction List\"\x7d")) (.ok ("not json")) =
      emptyFrame3 ∧
    emptyFrame3.cols ≠ ["date", "description", "amount", "main_category", "subcategory"] ∧
    "main_category" ∉ emptyFrame3.cols ∧ "subcategory" ∉ emptyFrame3.cols := by
  refine ⟨?_, by decide, by decide, by decide⟩
  exact rfl

/-- C7: amended parsing contract — the transformation applies
`json.loads` to the raw response payload without stripping markdown
code fences; a payload that fails to parse, that lacks the
`transactions` key, or that maps it to a scalar other than null,
yields the empty three-column fallback table (no typed
malformed-output error is raised), and a payload that is valid JSON
whose `transactions` value is a list of records is processed into a
table with one row per record and the records' key union as columns.
(A null or dict-of-lists `transactions` value takes neither path: the
DataFrame constructor accepts it, giving a zero-column or column
frame.) -/
theorem c7_no_fence_stripping (s : String) :
    (jsonLoads s = none → parseViaModel (.ok s) = emptyFrame3) ∧
    (∀ j, jsonLoads s = some j → j.getKey ("transactions") = none →
      parseViaModel (.ok s) = emptyFrame3) ∧
    (∀ j v, jsonLoads s = some j → j.getKey ("transactions") = some v →
      v.isScalar = true → v ≠ Json.null → parseViaModel (.ok s) = emptyFrame3) ∧
    (∀ j ts, jsonLoads s = some j → j.getKey ("transactions") = some (.arr ts) →
      ts.all Json.isObj = true →
      (∀ t ∈ ts, scalarCell (t.getKey ("amount")) = true ∧
        scalarCell (t.getKey ("date")) = true) →
      (parseViaModel (.ok s)).cols = keyUnion ts ∧
      (parseViaModel (.ok s)).rows.length = ts.length) :=
  ⟨parseViaModel_badJson s,
   fun j hl hk => parseViaModel_noKey s j hl hk,
   fun j v hl hk hs hn => parseViaModel_scalarVal s j v hl hk hs hn,
   fun j ts hl hk ho hsc => parseViaModel_ok_shape s j ts hl hk ho hsc⟩

/-- C7 witness: a plain JSON payload with one transaction record is
processed into a one-row table, and a malformed payload yields the
empty fallback table. -/
theorem c7_no_fence_stripping_witness :
    (parseViaModel (.ok
      ("\x7b\"transactions\": [\x7b\"date\": \"2025-01-01\", \"description\": \"a\", \"amount\": 1\x7d]\x7d"))).rows.length = 1 ∧
    parseViaModel (.ok ("not json")) = emptyFrame3 ∧
    parseViaModel (.ok ("\x7b\"other\": 1\x7d")) = emptyFrame3 ∧
    parseViaModel (.ok ("\x7b\"transactions\": \"x\"\x7d")) = emptyFrame3 := by
  have h1 := (c7_no_fence_stripping
      ("\x7b\"transactions\": [\x7b\"date\": \"2025-01-01\", \"description\": \"a\", \"amount\": 1\x7d]\x7d")).2.2.2
      (Json.obj [("transactions", Json.arr [Json.obj
        [("date", Json.str ("2025-01-01")), ("description", Json.str ("a")),
         ("amount", Json.num 1)]])])
      [Json.obj [("date", Json.str ("2025-01-01")), ("description", Json.str ("a")),
        ("amount", Json.num 1)]] rfl rfl rfl
      (by
        intro t ht
        rw [List.mem_singleton] at ht
        subst ht
        exact ⟨rfl, rfl⟩)
  refine ⟨h1.2, (c7_no_fence_stripping ("not json")).1 rfl, ?_, ?_⟩
  · exact (c7_no_fence_stripping ("\x7b\"other\": 1\x7d")).2.1
      (Json.obj [("other", Json.num 1)]) rfl rfl
  · exact (c7_no_fence_stripping ("\x7b\"transactions\": \"x\"\x7d")).2.2.1
      (Json.obj [("transactions", Json.str ("x"))]) (Json.str ("x")) rfl rfl rfl
      (fun h => Json.noConfusion h)

/-- C7 counterexample: the same valid JSON payload succeeds raw (one
row extracted) but, wrapped in markdown code fences, fails `json.loads`
and yields the empty fallback table with zero rows — the fences are not
stripped before parsing, contradicting the claim. -/
theorem c7_counterexample :
    jsonLoads
      ("```json\n\x7b\"transactions\": [\x7b\"date\": \"2025-01-01\", \"description\": \"a\", \"amount\": 1\x7d]\x7d\n```") = none ∧
    parseViaModel (.ok
      ("```json\n\x7b\"transactions\": [\x7b\"date\": \"2025-01-01\", \"description\": \"a\", \"amount\": 1\x7d]\x7d\n```")) = emptyFrame3 ∧
    (parseViaModel (.ok
      ("```json\n\x7b\"transactions\": [\x7b\"date\": \"2025-01-01\", \"description\": \"a\", \"amount\": 1\x7d]\x7d\n```"))).rows.length = 0 ∧
    (parseViaModel (.ok
      ("\x7b\"transactions\": [\x7b\"date\": \"2025-01-01\", \"description\": \"a\", \"amount\": 1\x7d]\x7d"))).rows.length = 1 :=
  ⟨rfl, rfl, rfl, rfl⟩

/-! ### Shape of the table built from well-formed transaction records -/

/-- A flat record: a dict all of whose values are scalars (the shape of
the transaction records the extraction prompt requests). -/
def flatObj : Json → Bool
  | .obj kvs => kvs.all (fun kv => kv.2.isScalar)
  | _ => false

lemma keyUnion_foldl_same (ks : List String) (ts : List Json)
    (h : ∀ t ∈ ts, Json.keys t = ks) :
    ts.foldl (fun acc t => acc ++ (Json.keys t).filter (fun k => k ∉ acc)) ks = ks := by
  induction ts with
  | nil => rfl
  | cons t ts ih =>
    simp only [List.foldl_cons]
    have hk : Json.keys t = ks := h t (List.mem_cons_self t ts)
    have hf : ks ++ (Json.keys t).filter (fun k => k ∉ ks) = ks := by
      rw [hk]
      have hnil : ks.filter (fun k => k ∉ ks) = [] := by
        rw [List.filter_eq_nil_iff]
        intro a ha
        simp [ha]
      rw [hnil, List.append_nil]
    rw [hf]
    exact ih (fun u hu => h u (List.mem_cons_of_mem _ hu))

lemma keyUnion_all_same (ks : List String) (ts : List Json)
    (h : ∀ t ∈ ts, Json.keys t = ks) (hne : ts ≠ []) : keyUnion ts = ks := by
  cases ts with
  | nil => exact absurd rfl hne
  | cons t ts =>
    unfold keyUnion
    simp only [List.foldl_cons, List.nil_append]
    have hk : Json.keys t = ks := h t (List.mem_cons_self t ts)
    have h0 : (Json.keys t).filter (fun k => k ∉ ([] : List String)) = ks := by
      rw [hk]
      apply List.filter_eq_self.mpr
      intro a _
      simp
    rw [h0]
    exact keyUnion_foldl_same ks ts (fun u hu => h u (List.mem_cons_of_mem _ hu))

lemma parseViaModel_flat3 (s : String) (j : Json) (ts : List Json)
    (hl : jsonLoads s = some j) (hk : j.getKey ("transactions") = some (.arr ts))
    (hne : ts ≠ [])
    (hkeys : ∀ t ∈ ts, Json.keys t = ["date", "description", "amount"])
    (hflat : ∀ t ∈ ts, flatObj t = true) :
    parseViaModel (.ok s) =
      ⟨["date", "description", "amount"],
       ts.map (fun t =>
         [pdToDateCell (t.getKey ("date")), t.getKey ("description"),
          pdToNumeric (t.getKey ("amount"))])⟩ := by
  have ho : ts.all Json.isObj = true := by
    rw [List.all_eq_true]
    intro t ht
    have := hflat t ht
    cases t <;> simp_all [flatObj, Json.isObj]
  have hcu : keyUnion ts = ["date", "description", "amount"] :=
    keyUnion_all_same _ ts hkeys hne
  simp only [parseViaModel, hl, hk, pdDataFrame, ho, if_true]
  unfold recordsFrame
  rw [hcu]
  simp only [Frame.mapCol, List.map_map]
  norm_num
  intro a _
  rfl

/-- C1: amended invariant — the table the transformation pipeline
produces from well-formed three-field transaction records has exactly
the columns `date`, `description`, `amount`: no `main_category` or
`subcategory` field exists on any record, and the amount and date cells
hold exactly the parse-or-missing coercions of the model's values, so
an unresolved value stays missing rather than being replaced by a
sentinel.  The `_hdate` hypothesis keeps the date values inside the
fragment on which `pdToDateCell` is faithful to pandas (missing, null,
or in-range ISO strings). -/
theorem c1_three_column_no_sentinels (s : String) (j : Json) (ts : List Json)
    (hl : jsonLoads s = some j) (hk : j.getKey ("transactions") = some (.arr ts))
    (hne : ts ≠ [])
    (hkeys : ∀ t ∈ ts, Json.keys t = ["date", "description", "amount"])
    (hflat : ∀ t ∈ ts, flatObj t = true)
    (_hdate : ∀ t ∈ ts, isoDateCell (t.getKey ("date")) = true) :
    (parseViaModel (.ok s)).cols = ["date", "description", "amount"] ∧
    "main_category" ∉ (parseViaModel (.ok s)).cols ∧
    "subcategory" ∉ (parseViaModel (.ok s)).cols ∧
    (parseViaModel (.ok s)).rows.length = ts.length ∧
    (parseViaModel (.ok s)).col ("amount") =
      ts.map (fun t => pdToNumeric (t.getKey ("amount"))) ∧
    (parseViaModel (.ok s)).col ("date") =
      ts.map (fun t => pdToDateCell (t.getKey ("date"))) := by
  rw [parseViaModel_flat3 s j ts hl hk hne hkeys hflat]
  refine ⟨rfl, ?_, ?_, by simp, ?_, ?_⟩
  · show "main_category" ∉ (["date", "description", "amount"] : List String)
    decide
  · show "subcategory" ∉ (["date", "description", "amount"] : List String)
    decide
  · unfold Frame.col
    simp only [List.map_map]
    exact List.map_congr_left (fun t _ => rfl)
  · unfold Frame.col
    simp only [List.map_map]
    exact List.map_congr_left (fun t _ => rfl)

/-- C1 witness: the shape facts at a concrete one-record response. -/
theorem c1_three_column_no_sentinels_witness :
    (parseViaModel (.ok
      ("\x7b\"transactions\": [\x7b\"date\": \"2025-03-01\", \"description\": \"Coffee\", \"amount\": 2\x7d]\x7d"))).cols =
      ["date", "description", "amount"] ∧
    "main_category" ∉ (parseViaModel (.ok
      ("\x7b\"transactions\": [\x7b\"date\": \"2025-03-01\", \"description\": \"Coffee\", \"amount\": 2\x7d]\x7d"))).cols := by
  obtain ⟨h1, h2, -⟩ := c1_three_column_no_sentinels
    ("\x7b\"transactions\": [\x7b\"date\": \"2025-03-01\", \"description\": \"Coffee\", \"amount\": 2\x7d]\x7d")
    (Json.obj [("transactions", Json.arr [Json.obj
      [("date", Json.str ("2025-03-01")), ("description", Json.str ("Coffee")),
       ("amount", Json.num 2)]])])
    [Json.obj [("date", Json.str ("2025-03-01")), ("description", Json.str ("Coffee")),
      ("amount", Json.num 2)]]
    rfl rfl (List.cons_ne_nil _ _)
    (by
      intro t ht
      rw [List.mem_singleton] at ht
      subst ht
      rfl)
    (by
      intro t ht
      rw [List.mem_singleton] at ht
      subst ht
      rfl)
    (by
      intro t ht
      rw [List.mem_singleton] at ht
      subst ht
      rfl)
  exact ⟨h1, h2⟩

/-- C1 counterexample: a record whose amount the model left null comes
out of the full pipeline as a row without `main_category` or
`subcategory` and with a missing amount cell — not with the documented
sentinels — so the five-field populated invariant is false on the code. -/
theorem c1_counterexample :
    (parseWithGpt (some ("k")) (.ok ("doc content"))
      (.ok ("\x7b\"document_type\": \"Transaction List\"\x7d"))
      (.ok ("\x7b\"transactions\": [\x7b\"date\": \"2025-03-01\", \"description\": \"Coffee\", \"amount\": null\x7d]\x7d"))).cols =
      ["date", "description", "amount"] ∧
    "main_category" ∉ (parseWithGpt (some ("k")) (.ok ("doc content"))
      (.ok ("\x7b\"document_type\": \"Transaction List\"\x7d"))
      (.ok ("\x7b\"transactions\": [\x7b\"date\": \"2025-03-01\", \"description\": \"Coffee\", \"amount\": null\x7d]\x7d"))).cols ∧
    "subcategory" ∉ (parseWithGpt (some ("k")) (.ok ("doc content"))
      (.ok ("\x7b\"document_type\": \"Transaction List\"\x7d"))
      (.ok ("\x7b\"transactions\": [\x7b\"date\": \"2025-03-01\", \"description\": \"Coffee\", \"amount\": null\x7d]\x7d"))).cols ∧
    (parseWithGpt (some ("k")) (.ok ("doc content"))
      (.ok ("\x7b\"document_type\": \"Transaction List\"\x7d"))
      (.ok ("\x7b\"transactions\": [\x7b\"date\": \"2025-03-01\", \"description\": \"Coffee\", \"amount\": null\x7d]\x7d"))).rows.length = 1 ∧
    (parseWithGpt (some ("k")) (.ok ("doc content"))
      (.ok ("\x7b\"document_type\": \"Transaction List\"\x7d"))
      (.ok ("\x7b\"transactions\": [\x7b\"date\": \"2025-03-01\", \"description\": \"Coffee\", \"amount\": null\x7d]\x7d"))).col ("amount") =
      [none] := by
  refine ⟨rfl, by decide, by decide, rfl, rfl⟩

/-! ### Categorizer claims -/

/-- A concrete well-formed transaction frame used by witnesses. -/
def sampleFrame : Frame :=
  ⟨["date", "description", "amount"],
   [[some (.str ("2025-03-01")), some (.str ("Coffee")), some (.num 2)],
    [some (.str ("2025-03-02")), some (.str ("Rent")), some (.num 100)]]⟩

/-- C4: whenever the categorizer response cannot be parsed as JSON, or
parses to an object whose extracted label array has a length different
from the row count, `categorize_transactions` returns (it never raises —
the embedding is a total function, every exception being caught by the
handlers) a table in which every row's category is `Uncategorized`. -/
theorem c4_categorize_fallback (apiKey : Option String) (f : Frame)
    (call : Except PyError String) (hwf : f.WF)
    (h : (∃ s, call = .ok s ∧ jsonLoads s = none) ∨
         (∃ s j cs, call = .ok s ∧ jsonLoads s = some j ∧ j.isObj = true ∧
            extractCategories j = some (.arr cs) ∧ cs.length ≠ f.rows.length)) :
    "category" ∈ (categorize apiKey f call).returned.cols ∧
    (categorize apiKey f call).returned.col ("category") =
      List.replicate f.rows.length (some uncategorized) := by
  have hr0wf : (f.setColScalar ("category") (some (.str ("")))).WF :=
    setColScalar_WF f _ _ hwf
  have hr0len : (f.setColScalar ("category") (some (.str ("")))).rows.length
      = f.rows.length := setColScalar_rows_length f _ _
  cases apiKey with
  | none =>
    exact ⟨setColScalar_mem_cols f _ _, setColScalar_col f _ _ hwf⟩
  | some k =>
    simp only [categorize, categorizeRaw]
    cases hconv : rowsConvertible (f.setColScalar ("category") (some (.str ("")))) with
    | false =>
      simp only [hconv, Bool.false_eq_true, if_false]
      exact ⟨setColScalar_mem_cols f _ _, setColScalar_col f _ _ hwf⟩
    | true =>
      simp only [hconv, if_true]
      rcases h with ⟨s, rfl, hl⟩ | ⟨s, j, cs, rfl, hl, hobj, hcats, hlen⟩
      · simp only [hl]
        refine ⟨setColScalar_mem_cols _ _ _, ?_⟩
        rw [setColScalar_col _ _ _ hr0wf, hr0len]
      · simp only [hl, hobj, if_true, hcats, pyLen]
        rw [if_neg (by rw [hr0len]; exact hlen)]
        refine ⟨setColScalar_mem_cols _ _ _, ?_⟩
        rw [setColScalar_col _ _ _ hr0wf, hr0len]

/-- C4 witness: a one-label response against a two-row frame degrades
every row to `Uncategorized`. -/
theorem c4_categorize_fallback_witness :
    "category" ∈ (categorize (some ("k")) sampleFrame
      (.ok ("\x7b\"categories\": [\"Revenue\"]\x7d"))).returned.cols ∧
    (categorize (some ("k")) sampleFrame
      (.ok ("\x7b\"categories\": [\"Revenue\"]\x7d"))).returned.col ("category") =
      List.replicate sampleFrame.rows.length (some uncategorized) :=
  c4_categorize_fallback (some ("k")) sampleFrame
    (.ok ("\x7b\"categories\": [\"Revenue\"]\x7d")) (by decide)
    (Or.inr ⟨("\x7b\"categories\": [\"Revenue\"]\x7d"),
      Json.obj [("categories", Json.arr [Json.str ("Revenue")])],
      [Json.str ("Revenue")], rfl, rfl, rfl, rfl, by decide⟩)

/-- C5: with no resolvable credential, `categorize_transactions` issues
no model request, assigns `Uncategorized` to every row, and returns the
caller's own frame; for document transformation the missing credential
makes the parser constructor raise `ValueError`, so no extraction is
performed and `parse_with_gpt` yields the empty fallback table whatever
the document inputs would have been. -/
theorem c5_credential_policy (f : Frame) (call : Except PyError String) (hwf : f.WF) :
    (categorize none f call).calledModel = false ∧
    (categorize none f call).returnedIsInput = true ∧
    "category" ∈ (categorize none f call).returned.cols ∧
    (categorize none f call).returned.col ("category") =
      List.replicate f.rows.length (some uncategorized) ∧
    gptParserInit none = .error (.valueError
      ("OpenAI API key not found. Please set the OPENAI_API_KEY environment variable.")) ∧
    (∀ ex dResp txResp, parseWithGpt none ex dResp txResp = emptyFrame3) := by
  refine ⟨rfl, rfl, ?_, ?_, rfl, fun ex d t => rfl⟩
  · exact setColScalar_mem_cols f _ _
  · exact setColScalar_col f _ _ hwf

/-- C5 witness: the no-credential behaviour at a concrete frame. -/
theorem c5_credential_policy_witness :
    (categorize none sampleFrame (.error .apiError)).calledModel = false ∧
    (categorize none sampleFrame (.error .apiError)).returnedIsInput = true ∧
    (categorize none sampleFrame (.error .apiError)).returned.col ("category") =
      List.replicate sampleFrame.rows.length (some uncategorized) := by
  obtain ⟨h1, h2, -, h4, -⟩ :=
    c5_credential_policy sampleFrame (.error .apiError) (by decide)
  exact ⟨h1, h2, h4⟩

/-- C10: amended frame effect — `categorize_transactions` mutates the
caller's DataFrame and returns that same object exactly on the
no-credential path and on exceptions that escape to the top-level
handler (model-call failure, row-conversion failure); on every path
handled inside the response-processing block — successful assignment,
but also malformed response content and label-count mismatch — it
copies first, leaves the caller's frame untouched, and returns the
copy.  The row-conversion-failure part carries a `floatFragment`
hypothesis keeping the amount cells inside the fragment on which
`floatable` is faithful to Python's `float`. -/
theorem c10_mutation_characterization (k : String) (f : Frame)
    (call : Except PyError String) :
    ((categorize none f call).returnedIsInput = true ∧
     (categorize none f call).finalInput =
       f.setColScalar ("category") (some uncategorized)) ∧
    ((f.col ("amount")).all floatFragment = true →
      rowsConvertible (f.setColScalar ("category") (some (.str ("")))) = false →
      (categorize (some k) f call).returnedIsInput = true ∧
      (categorize (some k) f call).finalInput =
        f.setColScalar ("category") (some uncategorized)) ∧
    (∀ e, rowsConvertible (f.setColScalar ("category") (some (.str ("")))) = true →
      call = .error e →
      (categorize (some k) f call).returnedIsInput = true ∧
      (categorize (some k) f call).finalInput =
        f.setColScalar ("category") (some uncategorized)) ∧
    (∀ s, rowsConvertible (f.setColScalar ("category") (some (.str ("")))) = true →
      call = .ok s → jsonLoads s = none →
      (categorize (some k) f call).returnedIsInput = false ∧
      (categorize (some k) f call).finalInput = f) ∧
    (∀ s j, rowsConvertible (f.setColScalar ("category") (some (.str ("")))) = true →
      call = .ok s → jsonLoads s = some j → j.isObj = true →
      (extractCategories j = none ∨
        (∃ cats n, extractCategories j = some cats ∧ pyLen cats = .ok n)) →
      (categorize (some k) f call).returnedIsInput = false ∧
      (categorize (some k) f call).finalInput = f) := by
  refine ⟨⟨rfl, rfl⟩, ?_, ?_, ?_, ?_⟩
  · intro _hfrag hconv
    simp only [categorize, categorizeRaw, hconv, Bool.false_eq_true, if_false]
    exact ⟨trivial, trivial⟩
  · intro e hconv hc
    subst hc
    simp only [categorize, categorizeRaw, hconv, if_true]
    exact ⟨trivial, trivial⟩
  · intro s hconv hc hl
    subst hc
    simp only [categorize, categorizeRaw, hconv, if_true, hl]
    exact ⟨trivial, trivial⟩
  · intro s j hconv hc hl hobj hcats
    subst hc
    simp only [categorize, categorizeRaw, hconv, if_true, hl, hobj]
    rcases hcats with hnone | ⟨cats, n, hsome, hlen⟩
    · simp only [hnone]
      exact ⟨trivial, trivial⟩
    · simp only [hsome, hlen]
      split_ifs <;> exact ⟨rfl, rfl⟩

/-- C10 witness: the characterization applied on the malformed-response
path at a concrete frame. -/
theorem c10_mutation_characterization_witness :
    (categorize (some ("k")) sampleFrame (.ok ("oops"))).returnedIsInput = false ∧
    (categorize (some ("k")) sampleFrame (.ok ("oops"))).finalInput = sampleFrame := by
  obtain ⟨-, -, -, h4, -⟩ :=
    c10_mutation_characterization ("k") sampleFrame (.ok ("oops"))
  exact h4 ("oops") (by decide) rfl rfl

/-- C10 counterexample: on the malformed-response exception path (the
payload is not valid JSON, so `json.JSONDecodeError` is raised and
caught) the function returns a fresh copy, not the caller's object, and
assigns no category column onto the caller's frame — contradicting the
claim that every exception path mutates the input in place and returns
that same object. -/
theorem c10_counterexample :
    jsonLoads ("oops") = none ∧
    (categorize (some ("k")) sampleFrame (.ok ("oops"))).returnedIsInput = false ∧
    (categorize (some ("k")) sampleFrame (.ok ("oops"))).finalInput = sampleFrame ∧
    "category" ∉ (categorize (some ("k")) sampleFrame (.ok ("oops"))).finalInput.cols ∧
    "category" ∈ (categorize (some ("k")) sampleFrame (.ok ("oops"))).returned.cols := by
  refine ⟨rfl, rfl, rfl, by decide, by decide⟩
